import Mathlib

/-
Verification development for the googlevr/gvr-android-sdk repository.

This file gives a shallow embedding, in Lean 4, of the parts of the
repository source that the checked properties talk about:

* the C++ convenience wrappers `Frame` and `SwapChain` from
  `ndk-beta/demos/treasurehunt/.../vr/gvr/capi/include/gvr.h`
  (pass-through methods, move semantics, destructor);
* the helper functions of `samples/ndk-hellovr/src/main/jni/util.cc` and
  `util.h` (`CheckGLError`, `HELLOVR_CHECK`, `HalfPixelCount`,
  `MatrixToGLArray`, `MatrixPairToGLArray`, `LoadObjFile`);
* the audio-thread start/stop logic of
  `samples/ndk-hellovr/src/main/jni/hello_vr_app.cc`;
* the JNI bridge functions of
  `samples/ndk-hellovr/src/main/jni/hello_vr_jni.cc`;
* the asset-loading checks in `HelloVrApp::OnSurfaceCreated`.

External calls (the closed-source C API of libgvr, OpenGL, JNI) are
modelled by an explicit environment of uninterpreted result functions,
and the sequence of external calls a piece of code performs is recorded
as an explicit trace.  Machine integers are modelled as Nat/Int with
explicit reduction modulo 2^w at the points where the C code truncates
or wraps (unsigned int is 32 bits wide and GLushort is 16 bits wide on
the Android targets of this repository; signed int is 32 bits wide and
its overflow is modelled as two-complement wrap-around).
-/

namespace Gvr

/-! ## Plain-old-data types from the gvr headers -/

/-- Embeds `gvr_sizei` / `gvr::Sizei`: two `int32_t` fields. -/
structure Sizei where
  width : Int
  height : Int
deriving DecidableEq

/-- Embeds `gvr_mat4f` / `gvr::Mat4f`.  The C struct is `float m[4][4]`;
we model the storage as a total function from the two C array indices,
with only indices 0..3 ever used by the embedded code. -/
structure Mat4f where
  m : Nat → Nat → Float

/-! ## The C API boundary

The implementations of the `gvr_*` C functions live in the closed-source
`libgvr.so` and are not part of this repository.  We model a call to one
of them as an event in a trace, and the values they return by an
uninterpreted environment `CEnv`. -/

/-- One call of a `gvr_*` C function, with the argument values the
wrapper passed.  Handles (`gvr_frame*`, `gvr_swap_chain*`,
`gvr_buffer_viewport_list*`) are modelled as `Option Nat`, with `none`
standing for the null pointer. -/
inductive CCall where
  | gvr_frame_get_buffer_size (frame : Option Nat) (index : Int)
  | gvr_frame_bind_buffer (frame : Option Nat) (index : Int)
  | gvr_frame_unbind (frame : Option Nat)
  | gvr_frame_get_framebuffer_object (frame : Option Nat) (index : Int)
  | gvr_frame_submit (frame : Option Nat) (viewport_list : Option Nat)
      (world_to_head_transform : Mat4f)
  | gvr_swap_chain_destroy (swap_chain : Option Nat)
  | gvr_swap_chain_get_buffer_count (swap_chain : Option Nat)
  | gvr_swap_chain_get_buffer_size (swap_chain : Option Nat) (index : Int)
  | gvr_swap_chain_resize_buffer (swap_chain : Option Nat) (index : Int) (size : Sizei)
  | gvr_swap_chain_acquire_frame (swap_chain : Option Nat)

/-- Uninterpreted results of the closed-source C functions. -/
structure CEnv where
  frame_get_buffer_size : Option Nat → Int → Sizei
  frame_get_framebuffer_object : Option Nat → Int → Int
  /-- `gvr_frame_submit` receives `&frame_` and may overwrite the stored
  handle; this field gives the value the call leaves in `frame_`. -/
  frame_submit_result : Option Nat → Option Nat → Mat4f → Option Nat
  swap_chain_get_buffer_count : Option Nat → Int
  swap_chain_get_buffer_size : Option Nat → Int → Sizei
  swap_chain_acquire_frame : Option Nat → Option Nat

/-! ## The C++ wrapper classes `Frame` and `SwapChain` (gvr.h) -/

/-- Embeds `gvr::Frame`: holds the private member `gvr_frame* frame_`. -/
structure Frame where
  frame_ : Option Nat
deriving DecidableEq

/-- Embeds `gvr::BufferViewportList` as far as `Frame::Submit` needs it:
the private member `gvr_buffer_viewport_list* viewport_list_`. -/
structure BufferViewportList where
  viewport_list_ : Option Nat
deriving DecidableEq

/-- Embeds `gvr::SwapChain`: holds the private member
`gvr_swap_chain* swap_chain_`. -/
structure SwapChain where
  swap_chain_ : Option Nat
deriving DecidableEq

/-- `Sizei GetBufferSize(int32_t index) const {
  return gvr_frame_get_buffer_size(frame_, index); }` -/
def Frame.GetBufferSize (env : CEnv) (f : Frame) (index : Int) :
    Sizei × List CCall :=
  (env.frame_get_buffer_size f.frame_ index,
   [CCall.gvr_frame_get_buffer_size f.frame_ index])

/-- `void BindBuffer(int32_t index) { gvr_frame_bind_buffer(frame_, index); }` -/
def Frame.BindBuffer (f : Frame) (index : Int) : Unit × List CCall :=
  ((), [CCall.gvr_frame_bind_buffer f.frame_ index])

/-- `void Unbind() { gvr_frame_unbind(frame_); }` -/
def Frame.Unbind (f : Frame) : Unit × List CCall :=
  ((), [CCall.gvr_frame_unbind f.frame_])

/-- `int32_t GetFramebufferObject(int32_t index) {
  return gvr_frame_get_framebuffer_object(frame_, index); }` -/
def Frame.GetFramebufferObject (env : CEnv) (f : Frame) (index : Int) :
    Int × List CCall :=
  (env.frame_get_framebuffer_object f.frame_ index,
   [CCall.gvr_frame_get_framebuffer_object f.frame_ index])

/-- `void Submit(const BufferViewportList& viewport_list, const Mat4f&
world_to_head_transform) { gvr_frame_submit(&frame_,
viewport_list.viewport_list_, world_to_head_transform); }`.  The C call
receives the address of `frame_`, so the wrapped handle after the call
is whatever the external function left there. -/
def Frame.Submit (env : CEnv) (f : Frame) (viewport_list : BufferViewportList)
    (world_to_head_transform : Mat4f) : Frame × List CCall :=
  ({ frame_ := env.frame_submit_result f.frame_ viewport_list.viewport_list_
        world_to_head_transform },
   [CCall.gvr_frame_submit f.frame_ viewport_list.viewport_list_
      world_to_head_transform])

/-- `bool is_valid() const { return frame_ != nullptr; }` -/
def Frame.is_valid (f : Frame) : Bool :=
  f.frame_.isSome

/-- `Frame(Frame&& other) : frame_(nullptr) { std::swap(frame_, other.frame_); }`
Result: (the newly constructed object, `other` after the construction). -/
def Frame.moveConstruct (other : Frame) : Frame × Frame :=
  ({ frame_ := other.frame_ }, { frame_ := none })

/-- `Frame& operator=(Frame&& other) { std::swap(frame_, other.frame_);
return *this; }`  Result: (`*this` after, `other` after). -/
def Frame.moveAssign (this_ other : Frame) : Frame × Frame :=
  ({ frame_ := other.frame_ }, { frame_ := this_.frame_ })

/-- `int32_t GetBufferCount() const {
  return gvr_swap_chain_get_buffer_count(swap_chain_); }` -/
def SwapChain.GetBufferCount (env : CEnv) (s : SwapChain) : Int × List CCall :=
  (env.swap_chain_get_buffer_count s.swap_chain_,
   [CCall.gvr_swap_chain_get_buffer_count s.swap_chain_])

/-- `Sizei GetBufferSize(int32_t index) const {
  return gvr_swap_chain_get_buffer_size(swap_chain_, index); }` -/
def SwapChain.GetBufferSize (env : CEnv) (s : SwapChain) (index : Int) :
    Sizei × List CCall :=
  (env.swap_chain_get_buffer_size s.swap_chain_ index,
   [CCall.gvr_swap_chain_get_buffer_size s.swap_chain_ index])

/-- `void ResizeBuffer(int32_t index, Sizei size) {
  gvr_swap_chain_resize_buffer(swap_chain_, index, size); }` -/
def SwapChain.ResizeBuffer (s : SwapChain) (index : Int) (size : Sizei) :
    Unit × List CCall :=
  ((), [CCall.gvr_swap_chain_resize_buffer s.swap_chain_ index size])

/-- `Frame AcquireFrame() {
  Frame result(gvr_swap_chain_acquire_frame(swap_chain_)); return result; }` -/
def SwapChain.AcquireFrame (env : CEnv) (s : SwapChain) : Frame × List CCall :=
  ({ frame_ := env.swap_chain_acquire_frame s.swap_chain_ },
   [CCall.gvr_swap_chain_acquire_frame s.swap_chain_])

/-- `SwapChain(SwapChain&& other) : swap_chain_(nullptr) {
  std::swap(swap_chain_, other.swap_chain_); }` -/
def SwapChain.moveConstruct (other : SwapChain) : SwapChain × SwapChain :=
  ({ swap_chain_ := other.swap_chain_ }, { swap_chain_ := none })

/-- `SwapChain& operator=(SwapChain&& other) {
  std::swap(swap_chain_, other.swap_chain_); return *this; }` -/
def SwapChain.moveAssign (this_ other : SwapChain) : SwapChain × SwapChain :=
  ({ swap_chain_ := other.swap_chain_ }, { swap_chain_ := this_.swap_chain_ })

/-- `~SwapChain() { if (swap_chain_) gvr_swap_chain_destroy(&swap_chain_); }`
Returns the C calls the destructor performs. -/
def SwapChain.destructor (s : SwapChain) : List CCall :=
  match s.swap_chain_ with
  | some h => [CCall.gvr_swap_chain_destroy (some h)]
  | none => []

/-! ## util.h / util.cc helpers of the ndk-hellovr sample -/

/-- `GL_NO_ERROR` from the GL headers. -/
def GL_NO_ERROR : Int := 0

/-- Embeds `void CheckGLError(const char* label)` from util.cc.  The value
returned by the external `glGetError()` is the argument; `none` means the
function called `abort()`, `some ()` means it returned normally (the only
other effect in the source is a log line). -/
def CheckGLError (gl_error : Int) : Option Unit :=
  if gl_error ≠ GL_NO_ERROR then none else some ()

/-- Embeds the `HELLOVR_CHECK(condition)` macro from util.h:
`if (!(condition)) { LOGE(...); abort(); }`.  `none` means `abort()` was
reached, `some ()` means execution fell through. -/
def HELLOVR_CHECK (condition : Bool) : Option Unit :=
  if !condition then none else some ()

/-- Two-complement wrap of an integer into signed 32-bit range, the
behaviour of `int` arithmetic on the Android targets. -/
def wrap32 (x : Int) : Int :=
  (x + 2147483648) % 4294967296 - 2147483648

/-- Embeds `gvr::Sizei HalfPixelCount(const gvr::Sizei& in)` from util.cc:
`out.width = (7 * in.width) / 10; out.height = (7 * in.height) / 10;`
with `int32_t` multiplication (wrap-around) and C division (truncation
toward zero, `Int.tdiv`). -/
def HalfPixelCount (in_ : Sizei) : Sizei :=
  { width := Int.tdiv (wrap32 (7 * in_.width)) 10,
    height := Int.tdiv (wrap32 (7 * in_.height)) 10 }

/-- Embeds `std::array<float, 16> MatrixToGLArray(const gvr::Mat4f& matrix)`
from util.cc: a double loop storing `result[j * 4 + i] = matrix.m[i][j]`.
The `std::array` is modelled as a 16-element list (its uninitialised
cells as zero; every cell is written before the function returns) and an
indexed store as `List.set`. -/
def MatrixToGLArray (matrix : Mat4f) : List Float :=
  (List.range 4).foldl (fun result i =>
    (List.range 4).foldl (fun result j =>
      result.set (j * 4 + i) (matrix.m i j)) result)
    (List.replicate 16 0)

/-- Embeds `std::array<float, 32> MatrixPairToGLArray(const gvr::Mat4f
matrix[])` from util.cc: a double loop storing
`result[j * 4 + i] = matrix[0].m[i][j]` and
`result[16 + j * 4 + i] = matrix[1].m[i][j]`. -/
def MatrixPairToGLArray (matrix0 matrix1 : Mat4f) : List Float :=
  (List.range 4).foldl (fun result i =>
    (List.range 4).foldl (fun result j =>
      ((result.set (j * 4 + i) (matrix0.m i j)).set
        (16 + j * 4 + i) (matrix1.m i j))) result)
    (List.replicate 32 0)

/-! ## The audio startup thread of HelloVrApp (hello_vr_app.cc)

`HelloVrApp` owns `std::thread audio_initialization_thread_`.
`OnSurfaceCreated` runs

    if (!audio_initialization_thread_.joinable()) {
      audio_initialization_thread_ =
          std::thread(&HelloVrApp::LoadAndPlayTargetObjectSound, this);
    }

and the destructor runs

    if (audio_initialization_thread_.joinable()) {
      audio_initialization_thread_.join();
    }

(the treasure hunt renderer has the same pattern).  We model the thread
member by its `joinable()` flag: a default-constructed `std::thread` is
not joinable, assigning a freshly started thread makes it joinable, and
nothing in the source ever calls `detach()` or `join()` before the
destructor. -/

/-- Thread-lifecycle operations the app can perform on the audio thread. -/
inductive ThreadOp where
  | spawn
  | join
  | detach
deriving DecidableEq

/-- The thread-related effect of one `OnSurfaceCreated` call: input and
output are the `joinable()` state of `audio_initialization_thread_`. -/
def onSurfaceCreatedAudioThread (joinable : Bool) : Bool × List ThreadOp :=
  if !joinable then (true, [ThreadOp.spawn]) else (joinable, [])

/-- The thread-related effect of `~HelloVrApp()`. -/
def destructorAudioThread (joinable : Bool) : List ThreadOp :=
  if joinable then [ThreadOp.join] else []

/-- State and accumulated thread operations after `n` calls of
`OnSurfaceCreated`, starting from a freshly constructed app (whose
default-constructed thread member is not joinable). -/
def runSurfaceCreatedCalls : Nat → Bool × List ThreadOp
  | 0 => (false, [])
  | n + 1 =>
    let (st, tr) := runSurfaceCreatedCalls n
    let (st2, tr2) := onSurfaceCreatedAudioThread st
    (st2, tr ++ tr2)

/-- Thread operations of a whole app run: construction, `n` calls of
`OnSurfaceCreated`, then destruction. -/
def appThreadTrace (n : Nat) : List ThreadOp :=
  let (st, tr) := runSurfaceCreatedCalls n
  tr ++ destructorAudioThread st

/-! ## The JNI bridge (hello_vr_jni.cc)

Each `JNI_METHOD` body is embedded as the list of operations it performs
on C++ objects, plus its return value where there is one.  `jptr` and
`native` are the identity reinterpret-casts between the `jlong` handle
and the `HelloVrApp*`; we model both pointer types as `Int`. -/

/-- The lifecycle methods of `HelloVrApp` the JNI layer can invoke. -/
inductive AppMethod where
  | onSurfaceCreated
  | onDrawFrame
  | onTriggerEvent
  | onPause
  | onResume
deriving DecidableEq

/-- One operation performed by a JNI bridge function. -/
inductive JniOp where
  /-- calling a lifecycle method on the app object behind a pointer -/
  | invoke (app : Int) (method : AppMethod)
  /-- `delete native(native_app)` -/
  | deleteApp (app : Int)
  /-- `new gvr::AudioApi` producing the given object -/
  | newAudioApi (audio : Int)
  /-- `audio_context->Init(env, android_context, class_loader,
  GVR_AUDIO_RENDERING_BINAURAL_HIGH_QUALITY)` -/
  | audioApiStartup (audio : Int)
  /-- `new ndk_hello_vr::HelloVrApp(env, asset_mgr, gvr_context, audio)` -/
  | newHelloVrApp (app : Int) (gvr_context : Int) (audio : Int)
deriving DecidableEq

/-- `inline jlong jptr(ndk_hello_vr::HelloVrApp *native_app)`. -/
def jptr (native_app : Int) : Int := native_app

/-- `inline ndk_hello_vr::HelloVrApp *native(jlong ptr)`. -/
def native (ptr : Int) : Int := ptr

/-- `nativeOnCreate`: allocates and sets up a `gvr::AudioApi`, constructs
a `HelloVrApp` from it and returns `jptr` of the new app.  The fresh
object addresses the allocator hands out are parameters. -/
def nativeOnCreate (freshAudio freshApp : Int) (native_gvr_api : Int) :
    Int × List JniOp :=
  (jptr freshApp,
   [JniOp.newAudioApi freshAudio,
    JniOp.audioApiStartup freshAudio,
    JniOp.newHelloVrApp freshApp native_gvr_api freshAudio])

/-- `nativeOnDestroy`: `delete native(native_app)`. -/
def nativeOnDestroy (native_app : Int) : List JniOp :=
  [JniOp.deleteApp (native native_app)]

/-- `nativeOnSurfaceCreated`: `native(native_app)->OnSurfaceCreated(env)`. -/
def nativeOnSurfaceCreated (native_app : Int) : List JniOp :=
  [JniOp.invoke (native native_app) AppMethod.onSurfaceCreated]

/-- `nativeOnDrawFrame`: `native(native_app)->OnDrawFrame()`. -/
def nativeOnDrawFrame (native_app : Int) : List JniOp :=
  [JniOp.invoke (native native_app) AppMethod.onDrawFrame]

/-- `nativeOnTriggerEvent`: `native(native_app)->OnTriggerEvent()`. -/
def nativeOnTriggerEvent (native_app : Int) : List JniOp :=
  [JniOp.invoke (native native_app) AppMethod.onTriggerEvent]

/-- `nativeOnPause`: `native(native_app)->OnPause()`. -/
def nativeOnPause (native_app : Int) : List JniOp :=
  [JniOp.invoke (native native_app) AppMethod.onPause]

/-- `nativeOnResume`: `native(native_app)->OnResume()`. -/
def nativeOnResume (native_app : Int) : List JniOp :=
  [JniOp.invoke (native native_app) AppMethod.onResume]

/-! ## The asset-loading checks of HelloVrApp::OnSurfaceCreated

`OnSurfaceCreated` wraps each mesh or texture loading call in
`HELLOVR_CHECK(...)`, in the source order below.  Each load call returns
a `bool`; the outcomes are the fields of `AssetInitResults`. -/

/-- Success values of the eleven mesh/texture loading calls in
`HelloVrApp::OnSurfaceCreated`, in source order. -/
structure AssetInitResults where
  room : Bool
  roomTex : Bool
  mesh0 : Bool
  tex0NotSelected : Bool
  tex0Selected : Bool
  mesh1 : Bool
  tex1NotSelected : Bool
  tex1Selected : Bool
  mesh2 : Bool
  tex2NotSelected : Bool
  tex2Selected : Bool
deriving DecidableEq

/-- The chain of `HELLOVR_CHECK(...Init...(...))` statements in
`HelloVrApp::OnSurfaceCreated`; `none` means one of them aborted. -/
def onSurfaceCreatedAssetChecks (r : AssetInitResults) : Option Unit := do
  HELLOVR_CHECK r.room
  HELLOVR_CHECK r.roomTex
  HELLOVR_CHECK r.mesh0
  HELLOVR_CHECK r.tex0NotSelected
  HELLOVR_CHECK r.tex0Selected
  HELLOVR_CHECK r.mesh1
  HELLOVR_CHECK r.tex1NotSelected
  HELLOVR_CHECK r.tex1Selected
  HELLOVR_CHECK r.mesh2
  HELLOVR_CHECK r.tex2NotSelected
  HELLOVR_CHECK r.tex2Selected

/-! ## The OBJ loader `LoadObjFile` (util.cc)

The function reads the asset into a string, iterates over its lines with
`getline`, dispatches on the first characters of each line, parses
`v` / `vt` / `vn` lines with `sscanf` and `f` lines with `strtok_r`, and
finally expands the collected indices into flat output arrays.

Embedding choices, each marked at its use site:
* the asset text is given as the list of its lines (the `getline` loop);
  I/O failure when opening the asset is outside the parsing logic the
  claims are about and is not modelled;
* `sscanf` float conversion (`%f`) is modelled by a recogniser for the
  C decimal floating-point syntax (optional sign, digits with an
  optional fraction part, optional exponent); hexadecimal floats and
  inf/nan spellings are not modelled; the parsed value is represented by
  the matched source text, since no checked property inspects the
  numeric value of a float;
* the C arrays `unsigned int vertex_index[4]` etc. are modelled as
  lists with one entry per face corner; entries the loop never assigns
  are modelled as 0 (in C they stay uninitialised, and corners beyond
  the fourth write out of bounds; no checked property depends on the
  values involved);
* `unsigned int` arithmetic is reduced modulo 2^32 and a store into a
  `std::vector<GLushort>` modulo 2^16. -/

/-- Whitespace in the sense of `isspace` in the C locale. -/
def isCWhitespace (c : Char) : Bool :=
  c = ' ' || c = '\t' || c = '\n' || c = '\x0d' || c = '\x0b' || c = '\x0c'

/-- ASCII decimal digit. -/
def isCDigit (c : Char) : Bool :=
  '0' ≤ c && c ≤ '9'

/-- Drops leading C whitespace (the effect of a space directive or of the
whitespace skip at the start of a `%f` conversion). -/
def skipWhite : List Char → List Char
  | [] => []
  | c :: rest => if isCWhitespace c then skipWhite rest else c :: rest

/-- Splits off the longest prefix of decimal digits. -/
def takeDigits : List Char → List Char × List Char
  | [] => ([], [])
  | c :: rest =>
    if isCDigit c then
      let (ds, r) := takeDigits rest
      (c :: ds, r)
    else ([], c :: rest)

/-- Recogniser for one `%f` conversion of `sscanf`: skip whitespace, then
an optional sign, a mantissa that must contain at least one digit
(digits, optionally followed by a point and more digits, or a point
followed by digits), then an optional exponent (`e` or `E`, optional
sign, at least one digit; left unconsumed when no digit follows).
Returns the matched text and the unconsumed rest, or `none` on a
matching failure. -/
def scanFloatTok (l : List Char) : Option (String × List Char) :=
  let l1 := skipWhite l
  let (sign, l2) :=
    match l1 with
    | c :: r => if c = '+' || c = '-' then ([c], r) else (([] : List Char), l1)
    | [] => ([], l1)
  let (intDigits, l3) := takeDigits l2
  let (fracPart, l4) :=
    match l3 with
    | c :: r =>
      if c = '.' then
        let (ds, r2) := takeDigits r
        ('.' :: ds, r2)
      else (([] : List Char), l3)
    | [] => ([], l3)
  if intDigits.isEmpty && (fracPart.isEmpty || fracPart = ['.']) then
    none
  else
    let (expPart, l5) :=
      match l4 with
      | c :: r =>
        if c = 'e' || c = 'E' then
          let (esign, r2) :=
            match r with
            | c2 :: r3 => if c2 = '+' || c2 = '-' then ([c2], r3) else (([] : List Char), r)
            | [] => ([], r)
          let (eds, r4) := takeDigits r2
          if eds.isEmpty then (([] : List Char), l4) else (c :: (esign ++ eds), r4)
        else (([] : List Char), l4)
      | [] => ([], l4)
    some (String.mk (sign ++ intDigits ++ fracPart ++ expPart), l5)

/-- Two consecutive `%f` conversions, as in `sscanf(line, "vt %f %f\n", ...)`
succeeding with 2 matches. -/
def scanFloat2 (l : List Char) : Option (String × String) :=
  match scanFloatTok l with
  | none => none
  | some (a, r1) =>
    match scanFloatTok r1 with
    | none => none
    | some (b, _) => some (a, b)

/-- Three consecutive `%f` conversions, as in
`sscanf(line, "v %f %f %f\n", ...)` succeeding with 3 matches. -/
def scanFloat3 (l : List Char) : Option (String × String × String) :=
  match scanFloatTok l with
  | none => none
  | some (a, r1) =>
    match scanFloatTok r1 with
    | none => none
    | some (b, r2) =>
      match scanFloatTok r2 with
      | none => none
      | some (c, _) => some (a, b, c)

/-- Splits a character list at every occurrence of the delimiter, keeping
empty pieces. -/
def splitAtChar (delim : Char) (l : List Char) : List (List Char) :=
  l.foldr
    (fun c acc =>
      if c = delim then [] :: acc
      else
        match acc with
        | t :: rest => (c :: t) :: rest
        | [] => [[c]])
    [[]]

/-- The token sequence produced by repeated
`strtok_r(s, delim, &iter)`: maximal nonempty runs between delimiter
characters (consecutive delimiters produce no empty tokens). -/
def strtokAll (delim : Char) (l : List Char) : List (List Char) :=
  (splitAtChar delim l).filter (fun t => !t.isEmpty)

/-- Whether the per-vertex face chunk contains the substring `"//"`
(`strstr(per_vertex_info_list[i], "//") != nullptr`). -/
def containsDoubleSlash : List Char → Bool
  | [] => false
  | [_] => false
  | c1 :: c2 :: rest =>
    (c1 = '/' && c2 = '/') || containsDoubleSlash (c2 :: rest)

/-- `atoi`: skip whitespace, optional sign, then the leading digits (0 if
there are none).  The C overflow behaviour for huge literals is not
modelled; no checked property depends on it. -/
def atoi (l : List Char) : Int :=
  let l1 := skipWhite l
  match l1 with
  | c :: r =>
    if c = '-' then -(Int.ofNat (digitsVal (takeDigits r).1))
    else if c = '+' then Int.ofNat (digitsVal (takeDigits r).1)
    else Int.ofNat (digitsVal (takeDigits l1).1)
  | [] => 0
where
  /-- Numeric value of a digit string. -/
  digitsVal (ds : List Char) : Nat :=
    ds.foldl (fun a c => a * 10 + (c.toNat - 48)) 0

/-- Conversion of an `int` value to `unsigned int` (reduction mod 2^32). -/
def toU32 (x : Int) : Nat :=
  (x % 4294967296).toNat

/-- The value stored by `vector<GLushort>::push_back(idx - 1)` where
`idx` is an `unsigned int`: unsigned subtraction, then truncation of the
32-bit value to 16 bits. -/
def decTruncate16 (v : Nat) : Nat :=
  ((v + 4294967295) % 4294967296) % 65536

/-- One per-vertex chunk of a face line, after splitting at `/`.
Mirrors the inner `while (strtok_r(..., "/", ...))` loop with its
`per_vertex_info_count` switch.  Returns
`(vertex_index, normal_index, texture_index, is_normal_available,
is_uv_available)` for this chunk, or `none` on the error branch (too
many index components for the accepted formats). -/
def parseFaceVertex (is_vertex_normal_only_face : Bool) :
    List (List Char) → Option (Nat × Nat × Nat × Bool × Bool)
  | [] => some (0, 0, 0, false, false)
  | [s0] => some (toU32 (atoi s0), 0, 0, false, false)
  | [s0, s1] =>
    if is_vertex_normal_only_face then
      some (toU32 (atoi s0), toU32 (atoi s1), 0, true, false)
    else
      some (toU32 (atoi s0), 0, toU32 (atoi s1), false, true)
  | [s0, s1, s2] =>
    if is_vertex_normal_only_face then
      none
    else
      some (toU32 (atoi s0), toU32 (atoi s2), toU32 (atoi s1), true, true)
  | _ => none

/-- The outer `for` loop over the face chunks: collects the per-corner
index values (in corner order) and accumulates the two availability
flags.  Fails as soon as one chunk fails. -/
def processFaceTokens :
    List (List Char) → Option (List Nat × List Nat × List Nat × Bool × Bool)
  | [] => some ([], [], [], false, false)
  | t :: rest =>
    match parseFaceVertex (containsDoubleSlash t) (strtokAll '/' t) with
    | none => none
    | some (v, n, u, na, ua) =>
      match processFaceTokens rest with
      | none => none
      | some (vs, ns, us, na2, ua2) =>
        some (v :: vs, n :: ns, u :: us, na || na2, ua || ua2)

/-- The fan-triangulation loop
`for (int i = 2; i < vertices_count; ++i)` pushing, for each `i`,
`xs[0] - 1`, `xs[i - 1] - 1`, `xs[i] - 1` (unsigned arithmetic truncated
to GLushort) into an index vector.  The loop variable is `i = j + 2`. -/
def fanIndices (xs : List Nat) : List Nat :=
  (List.range (xs.length - 2)).flatMap (fun j =>
    [decTruncate16 (xs.getD 0 0),
     decTruncate16 (xs.getD (j + 1) 0),
     decTruncate16 (xs.getD (j + 2) 0)])

/-- The accumulator vectors of `LoadObjFile`. -/
structure ObjState where
  temp_positions : List String
  temp_normals : List String
  temp_uvs : List String
  vertex_indices : List Nat
  normal_indices : List Nat
  uv_indices : List Nat
deriving DecidableEq

/-- All accumulator vectors start empty. -/
def initObjState : ObjState :=
  { temp_positions := [], temp_normals := [], temp_uvs := [],
    vertex_indices := [], normal_indices := [], uv_indices := [] }

/-- The `vn` branch: `sscanf(line_header, "vn %f %f %f\n", ...)` must
match 3 conversions, then the three components are pushed onto
`temp_normals`.  `rest` is the text after the matched literal `vn`. -/
def parseVnLine (st : ObjState) (rest : List Char) : Option ObjState :=
  match scanFloat3 rest with
  | none => none
  | some (a, b, c) =>
    some { st with temp_normals := st.temp_normals ++ [a, b, c] }

/-- The `vt` branch: `sscanf(line_header, "vt %f %f\n", ...)` must match
2 conversions, then the two components are pushed onto `temp_uvs`. -/
def parseVtLine (st : ObjState) (rest : List Char) : Option ObjState :=
  match scanFloat2 rest with
  | none => none
  | some (a, b) =>
    some { st with temp_uvs := st.temp_uvs ++ [a, b] }

/-- The `v` branch: `sscanf(line_header, "v %f %f %f\n", ...)` must match
3 conversions, then the three components are pushed onto
`temp_positions`.  `rest` is the text after the leading `v`. -/
def parseVLine (st : ObjState) (rest : List Char) : Option ObjState :=
  match scanFloat3 rest with
  | none => none
  | some (a, b, c) =>
    some { st with temp_positions := st.temp_positions ++ [a, b, c] }

/-- The `f` branch: tokenise `&line_header[1]` at spaces with `strtok_r`,
parse every chunk, then run the fan-triangulation loop, appending to the
three index vectors (the normal/uv ones only under their availability
flags). -/
def parseFaceLine (st : ObjState) (rest : List Char) : Option ObjState :=
  match processFaceTokens (strtokAll ' ' rest) with
  | none => none
  | some (vs, ns, us, is_normal_available, is_uv_available) =>
    some { st with
      vertex_indices := st.vertex_indices ++ fanIndices vs,
      normal_indices :=
        if is_normal_available then st.normal_indices ++ fanIndices ns
        else st.normal_indices,
      uv_indices :=
        if is_uv_available then st.uv_indices ++ fanIndices us
        else st.uv_indices }

/-- Dispatch on one line of the file, following the `if`/`else if` chain
on `line_header[0]` and `line_header[1]`.  An empty line and a line
whose first character matches no branch are skipped.  In the source the
second character of a one-character line is the NUL terminator, which
matches neither `n` nor `t`, so such a line falls into the `v` branch
with an empty remainder. -/
def processLine (st : ObjState) (line : String) : Option ObjState :=
  match line.data with
  | [] => some st
  | c0 :: rest0 =>
    if c0 = 'v' then
      match rest0 with
      | c1 :: rest1 =>
        if c1 = 'n' then parseVnLine st rest1
        else if c1 = 't' then parseVtLine st rest1
        else parseVLine st rest0
      | [] => parseVLine st []
    else if c0 = 'f' then parseFaceLine st rest0
    else some st

/-- The `while (file_string_stream && !file_string_stream.eof())` loop
over the lines of the file. -/
def processLines : ObjState → List String → Option ObjState
  | st, [] => some st
  | st, line :: rest =>
    match processLine st line with
    | none => none
    | some st2 => processLines st2 rest

/-- The four output vectors of `LoadObjFile`. -/
structure ObjOutputs where
  out_vertices : List String
  out_normals : List String
  out_uv : List String
  out_indices : List Nat
deriving DecidableEq

/-- One iteration of the final expansion loop
`for (unsigned int i = 0; i < vertex_indices.size(); i++)`:
three position components and the self-index `i` (stored into a
`vector<GLushort>`, hence mod 2^16) are always pushed; normal and uv
components only under the availability flags.  Out-of-range reads of
`temp_positions[...]` (undefined in C) are modelled by the default
element. -/
def pushExpandedVertex (st : ObjState)
    (is_normal_available is_uv_available : Bool)
    (acc : ObjOutputs) (i : Nat) : ObjOutputs :=
  let vertex_index := st.vertex_indices.getD i 0
  let acc :=
    { acc with
      out_vertices := acc.out_vertices ++
        [st.temp_positions.getD (vertex_index * 3) "0",
         st.temp_positions.getD (vertex_index * 3 + 1) "0",
         st.temp_positions.getD (vertex_index * 3 + 2) "0"],
      out_indices := acc.out_indices ++ [i % 65536] }
  let acc :=
    if is_normal_available then
      let normal_index := st.normal_indices.getD i 0
      { acc with
        out_normals := acc.out_normals ++
          [st.temp_normals.getD (normal_index * 3) "0",
           st.temp_normals.getD (normal_index * 3 + 1) "0",
           st.temp_normals.getD (normal_index * 3 + 2) "0"] }
    else acc
  if is_uv_available then
    let uv_index := st.uv_indices.getD i 0
    { acc with
      out_uv := acc.out_uv ++
        [st.temp_uvs.getD (uv_index * 2) "0",
         st.temp_uvs.getD (uv_index * 2 + 1) "0"] }
  else acc

/-- The final expansion loop over `i = 0 .. vertex_indices.size() - 1`. -/
def expandOutputs (st : ObjState)
    (is_normal_available is_uv_available : Bool) : ObjOutputs :=
  (List.range st.vertex_indices.length).foldl
    (pushExpandedVertex st is_normal_available is_uv_available)
    { out_vertices := [], out_normals := [], out_uv := [], out_indices := [] }

/-- Embeds `bool LoadObjFile(...)` from util.cc, from the line loop on:
process every line, then apply the two end-of-parse consistency checks,
then expand the outputs.  `none` is the `return false` path, `some`
carries the populated output vectors. -/
def LoadObjFile (lines : List String) : Option ObjOutputs :=
  match processLines initObjState lines with
  | none => none
  | some st =>
    let is_normal_available := !st.normal_indices.isEmpty
    let is_uv_available := !st.uv_indices.isEmpty
    if is_normal_available &&
        st.normal_indices.length != st.vertex_indices.length then
      none
    else if is_uv_available &&
        st.uv_indices.length != st.vertex_indices.length then
      none
    else
      some (expandOutputs st is_normal_available is_uv_available)

/-! ## Claim-side characterisations for the OBJ loader -/

/-- A face chunk carries more index components than the two accepted
formats allow: more than two `/`-separated components for the
`int//int` format, more than three for the `int/int/int` format. -/
def tooManyIndexComponents (t : List Char) : Bool :=
  if containsDoubleSlash t then decide (3 ≤ (strtokAll '/' t).length)
  else decide (4 ≤ (strtokAll '/' t).length)

/-- The malformed-line conditions of the claim, by line kind: a `vn` line
whose tail does not scan as three floats, a `vt` line whose tail does
not scan as two floats, another `v` line that does not scan as three
floats, or a face line one of whose chunks has too many index
components.  Empty lines and lines of any other kind are never
malformed. -/
def lineMalformed (line : String) : Bool :=
  match line.data with
  | [] => false
  | c0 :: rest0 =>
    if c0 = 'v' then
      match rest0 with
      | c1 :: rest1 =>
        if c1 = 'n' then (scanFloat3 rest1).isNone
        else if c1 = 't' then (scanFloat2 rest1).isNone
        else (scanFloat3 rest0).isNone
      | [] => (scanFloat3 ([] : List Char)).isNone
    else if c0 = 'f' then (processFaceTokens (strtokAll ' ' rest0)).isNone
    else false

/-! ## Theorems -/

/-- C1: every method of the `Frame` and `SwapChain` wrappers that
corresponds to a C function is a pure pass-through: on any environment
and any wrapped handle, the method performs exactly one call of the
corresponding C function, applied to the stored handle and the method
arguments, and its result is exactly the result of that call (for
`AcquireFrame` and `Submit`, wrapped back into a `Frame`), with no other
logic or state. -/
theorem C1_wrappers_pass_through :
    (∀ (env : CEnv) (f : Frame) (index : Int),
      Frame.GetBufferSize env f index =
        (env.frame_get_buffer_size f.frame_ index,
         [CCall.gvr_frame_get_buffer_size f.frame_ index])) ∧
    (∀ (f : Frame) (index : Int),
      Frame.BindBuffer f index =
        ((), [CCall.gvr_frame_bind_buffer f.frame_ index])) ∧
    (∀ f : Frame,
      Frame.Unbind f = ((), [CCall.gvr_frame_unbind f.frame_])) ∧
    (∀ (env : CEnv) (f : Frame) (index : Int),
      Frame.GetFramebufferObject env f index =
        (env.frame_get_framebuffer_object f.frame_ index,
         [CCall.gvr_frame_get_framebuffer_object f.frame_ index])) ∧
    (∀ (env : CEnv) (f : Frame) (viewport_list : BufferViewportList)
        (world_to_head : Mat4f),
      Frame.Submit env f viewport_list world_to_head =
        ({ frame_ := env.frame_submit_result f.frame_
              viewport_list.viewport_list_ world_to_head },
         [CCall.gvr_frame_submit f.frame_ viewport_list.viewport_list_
            world_to_head])) ∧
    (∀ (env : CEnv) (s : SwapChain),
      SwapChain.GetBufferCount env s =
        (env.swap_chain_get_buffer_count s.swap_chain_,
         [CCall.gvr_swap_chain_get_buffer_count s.swap_chain_])) ∧
    (∀ (env : CEnv) (s : SwapChain) (index : Int),
      SwapChain.GetBufferSize env s index =
        (env.swap_chain_get_buffer_size s.swap_chain_ index,
         [CCall.gvr_swap_chain_get_buffer_size s.swap_chain_ index])) ∧
    (∀ (s : SwapChain) (index : Int) (size : Sizei),
      SwapChain.ResizeBuffer s index size =
        ((), [CCall.gvr_swap_chain_resize_buffer s.swap_chain_ index size])) ∧
    (∀ (env : CEnv) (s : SwapChain),
      SwapChain.AcquireFrame env s =
        ({ frame_ := env.swap_chain_acquire_frame s.swap_chain_ },
         [CCall.gvr_swap_chain_acquire_frame s.swap_chain_])) :=
  ⟨fun _ _ _ => rfl, fun _ _ => rfl, fun _ => rfl, fun _ _ _ => rfl,
   fun _ _ _ _ => rfl, fun _ _ => rfl, fun _ _ _ => rfl, fun _ _ _ => rfl,
   fun _ _ => rfl⟩

/-- C2 counterexample: the claim says move assignment leaves the source
holding null, but `SwapChain::operator=(SwapChain&&)` is implemented
with `std::swap`.  Move-assigning a SwapChain holding handle 2 into one
holding handle 1 leaves the source holding handle 1, not null. -/
theorem C2_move_assign_counterexample :
    (SwapChain.moveAssign ⟨some 1⟩ ⟨some 2⟩).1.swap_chain_ = some 2 ∧
    (SwapChain.moveAssign ⟨some 1⟩ ⟨some 2⟩).2.swap_chain_ = some 1 ∧
    ¬ (SwapChain.moveAssign ⟨some 1⟩ ⟨some 2⟩).2.swap_chain_ = none := by
  refine ⟨rfl, rfl, ?_⟩
  decide

/-- C2 (amended): move construction transfers the wrapped handle to the
destination and leaves the source holding null; move assignment swaps
the two stored handles, so the source is left holding the previous
handle of the destination (null exactly when the destination held
null); the
destructor calls `gvr_swap_chain_destroy` exactly when the stored handle
is non-null; moves preserve the destroy calls that destructing both
objects performs, so each created swap chain is destroyed at most once
and destroying a SwapChain moved from by construction performs no
destroy call; a Frame moved from by construction has
`is_valid() == false`. -/
theorem C2_amended_move_semantics :
    (∀ other : SwapChain,
      SwapChain.moveConstruct other =
        ({ swap_chain_ := other.swap_chain_ }, { swap_chain_ := none })) ∧
    (∀ dst src : SwapChain,
      SwapChain.moveAssign dst src =
        ({ swap_chain_ := src.swap_chain_ },
         { swap_chain_ := dst.swap_chain_ })) ∧
    (∀ s : SwapChain,
      SwapChain.destructor s = [] ↔ s.swap_chain_ = none) ∧
    (∀ h : Nat,
      SwapChain.destructor { swap_chain_ := some h } =
        [CCall.gvr_swap_chain_destroy (some h)]) ∧
    (∀ other : SwapChain,
      SwapChain.destructor (SwapChain.moveConstruct other).1 ++
        SwapChain.destructor (SwapChain.moveConstruct other).2 =
        SwapChain.destructor other) ∧
    (∀ dst src : SwapChain,
      SwapChain.destructor (SwapChain.moveAssign dst src).1 ++
        SwapChain.destructor (SwapChain.moveAssign dst src).2 =
        SwapChain.destructor src ++ SwapChain.destructor dst) ∧
    (∀ other : Frame, (Frame.moveConstruct other).2.is_valid = false) := by
  refine ⟨fun _ => rfl, fun _ _ => rfl, ?_, fun _ => rfl, ?_, ?_, fun _ => rfl⟩
  · intro s
    cases h : s.swap_chain_ <;> simp [SwapChain.destructor, h]
  · intro other
    cases h : other.swap_chain_ <;>
      simp [SwapChain.moveConstruct, SwapChain.destructor, h]
  · intro dst src
    rfl

/-- C3: `CheckGLError` aborts exactly when the current GL error value is
anything other than `GL_NO_ERROR`, and otherwise returns normally; and
`HELLOVR_CHECK(cond)` aborts exactly when `cond` is false. -/
theorem C3_fail_fast_checks :
    (∀ gl_error : Int,
      (CheckGLError gl_error = none ↔ gl_error ≠ GL_NO_ERROR) ∧
      (CheckGLError gl_error = some () ↔ gl_error = GL_NO_ERROR)) ∧
    (∀ condition : Bool,
      (HELLOVR_CHECK condition = none ↔ condition = false) ∧
      (HELLOVR_CHECK condition = some () ↔ condition = true)) := by
  constructor
  · intro e
    by_cases h : e = GL_NO_ERROR <;> simp [CheckGLError, h]
  · intro c
    cases c <;> simp [HELLOVR_CHECK]

/-- C4 counterexample: in a run with one `OnSurfaceCreated` call the
audio thread is spawned and then joined by the destructor; no `detach`
operation occurs anywhere, so the claim that the worker thread is
detached is false of the code. -/
theorem C4_not_detached_counterexample :
    appThreadTrace 1 = [ThreadOp.spawn, ThreadOp.join] ∧
    ThreadOp.detach ∉ appThreadTrace 1 := by
  refine ⟨rfl, ?_⟩
  decide

/-- C4 (amended): each demo app spawns a single worker thread for audio
startup during the first `OnSurfaceCreated` call only, guarded by the
`joinable()` check, and that thread is joined by the destructor rather
than detached: for every number of `OnSurfaceCreated` calls the whole
run performs exactly one spawn followed by one join (and nothing at all
when the surface is never created), with at most one spawn and no
detach. -/
theorem C4_amended_audio_thread :
    ∀ n : Nat,
      appThreadTrace n =
        (if n = 0 then [] else [ThreadOp.spawn, ThreadOp.join]) ∧
      (appThreadTrace n).count ThreadOp.spawn ≤ 1 ∧
      ThreadOp.detach ∉ appThreadTrace n := by
  have hrun : ∀ n : Nat, runSurfaceCreatedCalls n =
      (if n = 0 then (false, []) else (true, [ThreadOp.spawn])) := by
    intro n
    induction n with
    | zero => rfl
    | succ k ih =>
      have h1 : runSurfaceCreatedCalls (k + 1) =
          ((onSurfaceCreatedAudioThread (runSurfaceCreatedCalls k).1).1,
           (runSurfaceCreatedCalls k).2 ++
             (onSurfaceCreatedAudioThread (runSurfaceCreatedCalls k).1).2) := rfl
      rw [h1, ih]
      by_cases hk : k = 0 <;> simp [hk, onSurfaceCreatedAudioThread]
  intro n
  cases n with
  | zero =>
    refine ⟨rfl, ?_, ?_⟩ <;> decide
  | succ k =>
    have h : appThreadTrace (k + 1) = [ThreadOp.spawn, ThreadOp.join] := by
      simp [appThreadTrace, hrun, destructorAudioThread]
    rw [h]
    refine ⟨by simp, ?_, ?_⟩ <;> decide

/-- Helper for C5: `isSome` of a `HELLOVR_CHECK` sequenced with a
continuation. -/
theorem HELLOVR_CHECK_bind_isSome (c : Bool) (k : Unit → Option Unit) :
    (HELLOVR_CHECK c >>= k).isSome = (c && (k ()).isSome) := by
  cases c <;> simp [HELLOVR_CHECK]

/-- Helper for C5: `isSome` of a bare `HELLOVR_CHECK`. -/
theorem HELLOVR_CHECK_isSome (c : Bool) :
    (HELLOVR_CHECK c).isSome = c := by
  cases c <;> simp [HELLOVR_CHECK]

/-- C5: the asset-loading section of `HelloVrApp::OnSurfaceCreated`
returns normally exactly when every one of the eleven mesh and texture
loading calls succeeded; whenever any of them returns false the run
aborts through `HELLOVR_CHECK`. -/
theorem C5_asset_checks_no_recovery :
    ∀ r : AssetInitResults,
      (onSurfaceCreatedAssetChecks r).isSome =
        (r.room && r.roomTex && r.mesh0 && r.tex0NotSelected &&
         r.tex0Selected && r.mesh1 && r.tex1NotSelected && r.tex1Selected &&
         r.mesh2 && r.tex2NotSelected && r.tex2Selected) := by
  intro r
  simp only [onSurfaceCreatedAssetChecks, HELLOVR_CHECK_bind_isSome,
    HELLOVR_CHECK_isSome, Bool.and_assoc]

/-- C6: each JNI bridge function of hello_vr_jni.cc forwards 1:1 to the
corresponding lifecycle method of the app object recovered from the
`jlong` handle, `nativeOnDestroy` deletes that object, and
`nativeOnCreate` returns, as `jlong`, the pointer to a freshly
constructed `HelloVrApp` (built from the gvr context handle and a
freshly created and initialised `AudioApi`), performing nothing else. -/
theorem C6_jni_bridge_forwards :
    (∀ native_app : Int,
      nativeOnSurfaceCreated native_app =
        [JniOp.invoke (native native_app) AppMethod.onSurfaceCreated]) ∧
    (∀ native_app : Int,
      nativeOnDrawFrame native_app =
        [JniOp.invoke (native native_app) AppMethod.onDrawFrame]) ∧
    (∀ native_app : Int,
      nativeOnTriggerEvent native_app =
        [JniOp.invoke (native native_app) AppMethod.onTriggerEvent]) ∧
    (∀ native_app : Int,
      nativeOnPause native_app =
        [JniOp.invoke (native native_app) AppMethod.onPause]) ∧
    (∀ native_app : Int,
      nativeOnResume native_app =
        [JniOp.invoke (native native_app) AppMethod.onResume]) ∧
    (∀ native_app : Int,
      nativeOnDestroy native_app = [JniOp.deleteApp (native native_app)]) ∧
    (∀ freshAudio freshApp native_gvr_api : Int,
      nativeOnCreate freshAudio freshApp native_gvr_api =
        (jptr freshApp,
         [JniOp.newAudioApi freshAudio,
          JniOp.audioApiStartup freshAudio,
          JniOp.newHelloVrApp freshApp native_gvr_api freshAudio])) :=
  ⟨fun _ => rfl, fun _ => rfl, fun _ => rfl, fun _ => rfl, fun _ => rfl,
   fun _ => rfl, fun _ _ _ => rfl⟩

/-- Helper for C8: the fully unrolled value of `MatrixToGLArray`. -/
theorem MatrixToGLArray_closed (matrix : Mat4f) :
    MatrixToGLArray matrix =
      [matrix.m 0 0, matrix.m 1 0, matrix.m 2 0, matrix.m 3 0,
       matrix.m 0 1, matrix.m 1 1, matrix.m 2 1, matrix.m 3 1,
       matrix.m 0 2, matrix.m 1 2, matrix.m 2 2, matrix.m 3 2,
       matrix.m 0 3, matrix.m 1 3, matrix.m 2 3, matrix.m 3 3] := by
  simp only [MatrixToGLArray, show List.range 4 = [0, 1, 2, 3] from rfl,
    List.foldl_cons, List.foldl_nil, List.replicate, List.set]

/-- Helper for C8: the fully unrolled value of `MatrixPairToGLArray`. -/
theorem MatrixPairToGLArray_closed (matrix0 matrix1 : Mat4f) :
    MatrixPairToGLArray matrix0 matrix1 =
      [matrix0.m 0 0, matrix0.m 1 0, matrix0.m 2 0, matrix0.m 3 0,
       matrix0.m 0 1, matrix0.m 1 1, matrix0.m 2 1, matrix0.m 3 1,
       matrix0.m 0 2, matrix0.m 1 2, matrix0.m 2 2, matrix0.m 3 2,
       matrix0.m 0 3, matrix0.m 1 3, matrix0.m 2 3, matrix0.m 3 3,
       matrix1.m 0 0, matrix1.m 1 0, matrix1.m 2 0, matrix1.m 3 0,
       matrix1.m 0 1, matrix1.m 1 1, matrix1.m 2 1, matrix1.m 3 1,
       matrix1.m 0 2, matrix1.m 1 2, matrix1.m 2 2, matrix1.m 3 2,
       matrix1.m 0 3, matrix1.m 1 3, matrix1.m 2 3, matrix1.m 3 3] := by
  simp only [MatrixPairToGLArray, show List.range 4 = [0, 1, 2, 3] from rfl,
    List.foldl_cons, List.foldl_nil, List.replicate, List.set]

/-- C8: `MatrixToGLArray` is exactly the transpose into column-major
order: for every matrix and all `i, j` in `0..3` the array cell
`4 * j + i` holds `m[i][j]`; and `MatrixPairToGLArray` applied to a pair
of matrices is exactly the concatenation of the two single-matrix
arrays (pure data movement, no arithmetic). -/
theorem C8_matrix_to_gl_array :
    (∀ (matrix : Mat4f) (i j : Fin 4),
      (MatrixToGLArray matrix).getD (4 * j.val + i.val) 0 =
        matrix.m i.val j.val) ∧
    (∀ matrix0 matrix1 : Mat4f,
      MatrixPairToGLArray matrix0 matrix1 =
        MatrixToGLArray matrix0 ++ MatrixToGLArray matrix1) := by
  constructor
  · intro matrix i j
    rw [MatrixToGLArray_closed]
    fin_cases i <;> fin_cases j <;> rfl
  · intro matrix0 matrix1
    rw [MatrixPairToGLArray_closed, MatrixToGLArray_closed,
      MatrixToGLArray_closed]
    rfl

/-- C9 counterexample: the claim quantifies over every size with
nonnegative width and height, but for width 2147483647 (the largest
`int32_t`) the multiplication `7 * in.width` wraps around in 32-bit
`int` arithmetic, so the computed width is 214748364 and not
`(7 * 2147483647) div 10 = 1503238552`. -/
theorem C9_half_pixel_count_counterexample :
    (HalfPixelCount { width := 2147483647, height := 1 }).width = 214748364 ∧
    ¬ ((HalfPixelCount { width := 2147483647, height := 1 }).width =
        Int.tdiv (7 * 2147483647) 10) := by
  refine ⟨by decide, by decide⟩

/-- C9 (amended): for every input size whose width and height lie in
`0 .. 306783378` (the nonnegative `int32_t` values for which `7 * width`
does not overflow a 32-bit `int`), `HalfPixelCount` computes exactly
`out.width = (7 * width) div 10` and `out.height = (7 * height) div 10`;
consequently the output pixel count is at most `49/100` of the input
pixel count, and strictly less than half of it whenever the input has at
least one pixel. -/
theorem C9_amended_half_pixel_count :
    ∀ w h : Int, 0 ≤ w → w ≤ 306783378 → 0 ≤ h → h ≤ 306783378 →
      HalfPixelCount { width := w, height := h } =
        { width := Int.tdiv (7 * w) 10, height := Int.tdiv (7 * h) 10 } ∧
      100 * ((HalfPixelCount { width := w, height := h }).width *
          (HalfPixelCount { width := w, height := h }).height) ≤
        49 * (w * h) ∧
      (1 ≤ w * h →
        2 * ((HalfPixelCount { width := w, height := h }).width *
            (HalfPixelCount { width := w, height := h }).height) < w * h) := by
  intro w h hw0 hw1 hh0 hh1
  have hwrap : ∀ x : Int, 0 ≤ x → x ≤ 2147483646 → wrap32 x = x := by
    intro x hx0 hx1
    have h1 : (x + 2147483648) % 4294967296 = x + 2147483648 :=
      Int.emod_eq_of_lt (by omega) (by omega)
    simp only [wrap32, h1]
    omega
  have hww : wrap32 (7 * w) = 7 * w := hwrap _ (by omega) (by omega)
  have hwhh : wrap32 (7 * h) = 7 * h := hwrap _ (by omega) (by omega)
  have heq : HalfPixelCount { width := w, height := h } =
      { width := Int.tdiv (7 * w) 10, height := Int.tdiv (7 * h) 10 } := by
    simp [HalfPixelCount, hww, hwhh]
  have hbound : ∀ x : Int, 0 ≤ x →
      0 ≤ Int.tdiv (7 * x) 10 ∧ 10 * Int.tdiv (7 * x) 10 ≤ 7 * x := by
    intro x hx
    refine ⟨Int.tdiv_nonneg (by omega) (by omega), ?_⟩
    have h2 := Int.tdiv_add_tmod (7 * x) 10
    have h3 := Int.tmod_nonneg 10 (by omega : (0:Int) ≤ 7 * x)
    omega
  obtain ⟨ha0, ha1⟩ := hbound w hw0
  obtain ⟨hb0, hb1⟩ := hbound h hh0
  have key : 100 * (Int.tdiv (7 * w) 10 * Int.tdiv (7 * h) 10) ≤ 49 * (w * h) := by
    have hmul : (10 * Int.tdiv (7 * w) 10) * (10 * Int.tdiv (7 * h) 10) ≤
        (7 * w) * (7 * h) :=
      mul_le_mul ha1 hb1 (by omega) (by omega)
    calc 100 * (Int.tdiv (7 * w) 10 * Int.tdiv (7 * h) 10)
        = (10 * Int.tdiv (7 * w) 10) * (10 * Int.tdiv (7 * h) 10) := by ring
      _ ≤ (7 * w) * (7 * h) := hmul
      _ = 49 * (w * h) := by ring
  refine ⟨heq, ?_, ?_⟩
  · rw [heq]
    exact key
  · intro hpix
    rw [heq]
    dsimp only
    linarith [key]

/-- Helper: a face chunk fails exactly when it has too many
`/`-separated components for its format. -/
theorem parseFaceVertex_none_iff (b : Bool) (subs : List (List Char)) :
    parseFaceVertex b subs = none ↔
      (if b then 3 ≤ subs.length else 4 ≤ subs.length) := by
  rcases subs with _ | ⟨s0, _ | ⟨s1, _ | ⟨s2, _ | ⟨s3, rest⟩⟩⟩⟩ <;>
    cases b <;> simp [parseFaceVertex]

/-- Helper: the whole face-chunk loop fails exactly when some chunk has
too many index components. -/
theorem processFaceTokens_none_iff (toks : List (List Char)) :
    processFaceTokens toks = none ↔
      ∃ t ∈ toks, tooManyIndexComponents t = true := by
  induction toks with
  | nil => simp [processFaceTokens]
  | cons t rest ih =>
    have hchunk : parseFaceVertex (containsDoubleSlash t) (strtokAll '/' t) = none ↔
        tooManyIndexComponents t = true := by
      rw [parseFaceVertex_none_iff, tooManyIndexComponents]
      cases h : containsDoubleSlash t <;> simp [h, decide_eq_true_iff]
    cases hp : parseFaceVertex (containsDoubleSlash t) (strtokAll '/' t) with
    | none =>
      simp only [processFaceTokens, hp]
      constructor
      · intro _
        exact ⟨t, List.mem_cons_self t rest, hchunk.mp hp⟩
      · intro _
        trivial
    | some val =>
      obtain ⟨v, n, u, na, ua⟩ := val
      have hnotbad : ¬ tooManyIndexComponents t = true := by
        intro hbad
        rw [← hchunk] at hbad
        rw [hp] at hbad
        cases hbad
      cases hr : processFaceTokens rest with
      | none =>
        simp only [processFaceTokens, hp, hr]
        constructor
        · intro _
          obtain ⟨t2, hmem, hbad⟩ := (ih).mp hr
          exact ⟨t2, List.mem_cons_of_mem t hmem, hbad⟩
        · intro _
          trivial
      | some val2 =>
        obtain ⟨vs, ns, us, na2, ua2⟩ := val2
        simp only [processFaceTokens, hp, hr]
        constructor
        · intro h
          cases h
        · rintro ⟨t2, hmem, hbad⟩
          rcases List.mem_cons.mp hmem with h | h
          · exact absurd (h ▸ hbad) hnotbad
          · have : processFaceTokens rest = none := (ih).mpr ⟨t2, h, hbad⟩
            rw [this] at hr
            cases hr

/-- Helper: the `vn` branch fails exactly on the scan failure. -/
theorem parseVnLine_none_iff (st : ObjState) (rest : List Char) :
    parseVnLine st rest = none ↔ scanFloat3 rest = none := by
  cases h : scanFloat3 rest with
  | none => simp [parseVnLine, h]
  | some v =>
    obtain ⟨a, b, c⟩ := v
    simp [parseVnLine, h]

/-- Helper: the `vt` branch fails exactly on the scan failure. -/
theorem parseVtLine_none_iff (st : ObjState) (rest : List Char) :
    parseVtLine st rest = none ↔ scanFloat2 rest = none := by
  cases h : scanFloat2 rest with
  | none => simp [parseVtLine, h]
  | some v =>
    obtain ⟨a, b⟩ := v
    simp [parseVtLine, h]

/-- Helper: the `v` branch fails exactly on the scan failure. -/
theorem parseVLine_none_iff (st : ObjState) (rest : List Char) :
    parseVLine st rest = none ↔ scanFloat3 rest = none := by
  cases h : scanFloat3 rest with
  | none => simp [parseVLine, h]
  | some v =>
    obtain ⟨a, b, c⟩ := v
    simp [parseVLine, h]

/-- Helper: processing one line fails exactly when the line is malformed
in the sense of the claim, independently of the accumulated state. -/
theorem processLine_none_iff (st : ObjState) (line : String) :
    processLine st line = none ↔ lineMalformed line = true := by
  cases hd : line.data with
  | nil => simp [processLine, lineMalformed, hd]
  | cons c0 rest0 =>
    simp only [processLine, lineMalformed, hd]
    by_cases h0 : c0 = 'v'
    · cases rest0 with
      | nil =>
        simp [h0, parseVLine_none_iff, Option.isNone_iff_eq_none]
      | cons c1 rest1 =>
        by_cases h1 : c1 = 'n'
        · simp [h0, h1, parseVnLine_none_iff, Option.isNone_iff_eq_none]
        · by_cases h2 : c1 = 't'
          · simp [h0, h1, h2, parseVtLine_none_iff, Option.isNone_iff_eq_none]
          · simp [h0, h1, h2, parseVLine_none_iff, Option.isNone_iff_eq_none]
    · by_cases h3 : c0 = 'f'
      · cases hf : processFaceTokens (strtokAll ' ' rest0) with
        | none => simp [h0, h3, parseFaceLine, hf, Option.isNone_iff_eq_none]
        | some val =>
          obtain ⟨vs, ns, us, na, ua⟩ := val
          simp [h0, h3, parseFaceLine, hf, Option.isNone_iff_eq_none]
      · simp [h0, h3]

/-- Helper: a malformed line anywhere in the file makes the whole line
loop fail. -/
theorem processLines_none_of_malformed :
    ∀ (lines : List String) (st : ObjState) (line : String),
      line ∈ lines → lineMalformed line = true → processLines st lines = none := by
  intro lines
  induction lines with
  | nil =>
    intro st line hmem
    cases hmem
  | cons l rest ih =>
    intro st line hmem hbad
    rcases List.mem_cons.mp hmem with h | h
    · have : processLine st l = none := (processLine_none_iff st l).mpr (h ▸ hbad)
      simp [processLines, this]
    · cases hp : processLine st l with
      | none => simp [processLines, hp]
      | some st2 =>
        simp only [processLines, hp]
        exact ih st2 line h hbad

/-- Helper: when no line is malformed the line loop succeeds. -/
theorem processLines_isSome_of_ok :
    ∀ (lines : List String) (st : ObjState),
      (∀ line ∈ lines, lineMalformed line = false) →
      (processLines st lines).isSome = true := by
  intro lines
  induction lines with
  | nil =>
    intro st _
    rfl
  | cons l rest ih =>
    intro st hok
    cases hp : processLine st l with
    | none =>
      have hbad := (processLine_none_iff st l).mp hp
      have := hok l (List.mem_cons_self l rest)
      rw [this] at hbad
      cases hbad
    | some st2 =>
      simp only [processLines, hp]
      exact ih st2 (fun line hmem => hok line (List.mem_cons_of_mem l hmem))

/-- C7: the OBJ loader validates every line kind and fails on malformed
input: `LoadObjFile` returns false whenever the file contains a `vn`
line that does not scan as three floats, a `vt` line that does not scan
as two floats, another `v` line that does not scan as three floats, or a
face line with a chunk carrying more index components than the two
accepted formats allow (the face loop fails exactly on such a chunk);
it also returns false when, at the end of parsing, the collected
normal-index or uv-index list is non-empty but its length differs from
the length of the vertex-index list; conversely a file with no malformed line
gets through the line loop, and on a concrete well-formed OBJ file the
loader returns true with populated outputs. -/
theorem C7_obj_loader_validation :
    (∀ (lines : List String) (line : String), line ∈ lines →
        lineMalformed line = true → LoadObjFile lines = none) ∧
    (∀ toks : List (List Char),
        processFaceTokens toks = none ↔
          ∃ t ∈ toks, tooManyIndexComponents t = true) ∧
    (∀ (lines : List String) (st : ObjState),
        processLines initObjState lines = some st →
        st.normal_indices ≠ [] →
        st.normal_indices.length ≠ st.vertex_indices.length →
        LoadObjFile lines = none) ∧
    (∀ (lines : List String) (st : ObjState),
        processLines initObjState lines = some st →
        st.uv_indices ≠ [] →
        st.uv_indices.length ≠ st.vertex_indices.length →
        LoadObjFile lines = none) ∧
    (∀ lines : List String, (∀ line ∈ lines, lineMalformed line = false) →
        (processLines initObjState lines).isSome = true) ∧
    (LoadObjFile ["v 1 2 3", "v 4 5 6", "v 7 8 9", "vt 0 0", "vt 1 0",
        "vt 0 1", "vn 0 0 1", "f 1/1/1 2/2/1 3/3/1"] =
      some { out_vertices := ["1", "2", "3", "4", "5", "6", "7", "8", "9"],
             out_normals := ["0", "0", "1", "0", "0", "1", "0", "0", "1"],
             out_uv := ["0", "0", "1", "0", "0", "1"],
             out_indices := [0, 1, 2] }) := by
  refine ⟨?_, processFaceTokens_none_iff, ?_, ?_,
    (fun lines h => processLines_isSome_of_ok lines initObjState h), ?_⟩
  · intro lines line hmem hbad
    have h := processLines_none_of_malformed lines initObjState line hmem hbad
    simp [LoadObjFile, h]
  · intro lines st hst hne hlen
    have h1 : st.normal_indices.isEmpty = false := List.isEmpty_eq_false.mpr hne
    have h2 : (st.normal_indices.length != st.vertex_indices.length) = true :=
      bne_iff_ne.mpr hlen
    simp [LoadObjFile, hst, h1, h2]
  · intro lines st hst hne hlen
    have h1 : st.uv_indices.isEmpty = false := List.isEmpty_eq_false.mpr hne
    have h2 : (st.uv_indices.length != st.vertex_indices.length) = true :=
      bne_iff_ne.mpr hlen
    simp [LoadObjFile, hst, h1, h2]
  · decide

/-- Witness for C7: the malformed `vt` line with a single float makes
the loader fail on a concrete file. -/
theorem C7_obj_loader_validation_witness :
    ("vt 1" : String) ∈ ["vt 1"] ∧ lineMalformed "vt 1" = true ∧
      LoadObjFile ["vt 1"] = none :=
  ⟨by decide, by decide,
   C7_obj_loader_validation.1 ["vt 1"] "vt 1" (by decide) (by decide)⟩

/-- Helper: the face-chunk loop yields one vertex index per chunk. -/
theorem processFaceTokens_length :
    ∀ (toks : List (List Char)) (vs ns us : List Nat) (na ua : Bool),
      processFaceTokens toks = some (vs, ns, us, na, ua) →
      vs.length = toks.length := by
  intro toks
  induction toks with
  | nil =>
    intro vs ns us na ua h
    simp only [processFaceTokens, Option.some.injEq, Prod.mk.injEq] at h
    obtain ⟨h1, -⟩ := h
    simp [← h1]
  | cons t rest ih =>
    intro vs ns us na ua h
    cases hp : parseFaceVertex (containsDoubleSlash t) (strtokAll '/' t) with
    | none =>
      rw [processFaceTokens, hp] at h
      cases h
    | some val =>
      obtain ⟨v, n, u, na1, ua1⟩ := val
      cases hr : processFaceTokens rest with
      | none =>
        rw [processFaceTokens, hp, hr] at h
        cases h
      | some val2 =>
        obtain ⟨vs2, ns2, us2, na2, ua2⟩ := val2
        rw [processFaceTokens, hp, hr] at h
        simp only [Option.some.injEq, Prod.mk.injEq] at h
        obtain ⟨h1, -⟩ := h
        rw [← h1]
        simp [ih vs2 ns2 us2 na2 ua2 hr]

/-- Helper: the fan-triangulation loop emits three corner indices per
triangle, and a face with `k` chunks yields `k - 2` triangles. -/
theorem fanIndices_length (xs : List Nat) :
    (fanIndices xs).length = 3 * (xs.length - 2) := by
  rw [fanIndices, List.length_flatMap]
  have hmap : List.map (List.length ∘ fun j =>
      [decTruncate16 (xs.getD 0 0), decTruncate16 (xs.getD (j + 1) 0),
       decTruncate16 (xs.getD (j + 2) 0)]) (List.range (xs.length - 2)) =
      List.map (fun _ => (3 : Nat)) (List.range (xs.length - 2)) :=
    List.map_congr_left (fun a _ => rfl)
  rw [hmap]
  have h : ∀ k : Nat, (List.map (fun _ => (3 : Nat)) (List.range k)).sum = 3 * k := by
    intro k
    induction k with
    | zero => rfl
    | succ m ihm =>
      rw [List.range_succ, List.map_append, List.sum_append, ihm]
      simp
      omega
  exact h (xs.length - 2)

/-- Helper: the fields a single expansion step appends. -/
theorem pushExpandedVertex_fields (st : ObjState) (na ua : Bool)
    (acc : ObjOutputs) (i : Nat) :
    (pushExpandedVertex st na ua acc i).out_indices =
      acc.out_indices ++ [i % 65536] ∧
    (pushExpandedVertex st na ua acc i).out_vertices.length =
      acc.out_vertices.length + 3 ∧
    (pushExpandedVertex st na ua acc i).out_uv.length =
      acc.out_uv.length + (if ua then 2 else 0) := by
  cases na <;> cases ua <;> simp [pushExpandedVertex]

/-- Helper: the fields of the whole expansion loop, generalised over the
accumulator. -/
theorem expandLoop_fields (st : ObjState) (na ua : Bool) :
    ∀ (l : List Nat) (acc : ObjOutputs),
      (l.foldl (pushExpandedVertex st na ua) acc).out_indices =
        acc.out_indices ++ l.map (fun i => i % 65536) ∧
      (l.foldl (pushExpandedVertex st na ua) acc).out_vertices.length =
        acc.out_vertices.length + 3 * l.length ∧
      (l.foldl (pushExpandedVertex st na ua) acc).out_uv.length =
        acc.out_uv.length + (if ua then 2 else 0) * l.length := by
  intro l
  induction l with
  | nil =>
    intro acc
    simp
  | cons i rest ih =>
    intro acc
    obtain ⟨ha, hb, hc⟩ := pushExpandedVertex_fields st na ua acc i
    obtain ⟨ia, ib, ic⟩ := ih (pushExpandedVertex st na ua acc i)
    refine ⟨?_, ?_, ?_⟩
    · rw [List.foldl_cons, ia, ha]
      simp
    · rw [List.foldl_cons, ib, hb]
      simp
      omega
    · rw [List.foldl_cons, ic, hc]
      cases ua
      · simp
      · simp
        omega

/-- Helper: a successful `LoadObjFile` run returns exactly the expansion
of the state the line loop produced. -/
theorem LoadObjFile_eq_expand (lines : List String) (st : ObjState)
    (out : ObjOutputs) :
    processLines initObjState lines = some st → LoadObjFile lines = some out →
    out = expandOutputs st (!st.normal_indices.isEmpty)
      (!st.uv_indices.isEmpty) := by
  intro hst hout
  simp only [LoadObjFile, hst] at hout
  split at hout
  · cases hout
  · split at hout
    · cases hout
    · injection hout with h
      exact h.symm

/-- C10: whenever `LoadObjFile` returns true its outputs are fully
expanded and self-indexed: `out_indices` is exactly the sequence
`0, 1, ..., n-1` reduced modulo 2^16 where `n` is the number of
collected triangle-corner indices, `out_vertices` has exactly `3 * n`
entries, and `out_uv`, when non-empty, has exactly `2 * n` entries;
moreover the corner collection triangulates each face as a fan, a face
line with `k` chunks contributing `3 * (k - 2)` corner indices. -/
theorem C10_obj_outputs_fully_expanded :
    (∀ (lines : List String) (st : ObjState) (out : ObjOutputs),
        processLines initObjState lines = some st →
        LoadObjFile lines = some out →
        out.out_indices =
          (List.range st.vertex_indices.length).map (fun i => i % 65536) ∧
        out.out_vertices.length = 3 * st.vertex_indices.length ∧
        (out.out_uv ≠ [] →
          out.out_uv.length = 2 * st.vertex_indices.length)) ∧
    (∀ (toks : List (List Char)) (vs ns us : List Nat) (na ua : Bool),
        processFaceTokens toks = some (vs, ns, us, na, ua) →
        (fanIndices vs).length = 3 * (toks.length - 2)) := by
  constructor
  · intro lines st out hst hout
    have hexp := LoadObjFile_eq_expand lines st out hst hout
    obtain ⟨ia, ib, ic⟩ := expandLoop_fields st (!st.normal_indices.isEmpty)
      (!st.uv_indices.isEmpty) (List.range st.vertex_indices.length)
      { out_vertices := [], out_normals := [], out_uv := [], out_indices := [] }
    subst hexp
    refine ⟨?_, ?_, ?_⟩
    · simpa [expandOutputs] using ia
    · simpa [expandOutputs] using ib
    · intro hne
      cases hua : st.uv_indices.isEmpty with
      | true =>
        exfalso
        apply hne
        apply List.length_eq_zero.mp
        rw [hua] at ic
        simpa [expandOutputs, hua] using ic
      | false =>
        rw [hua] at ic
        simpa [expandOutputs, hua] using ic
  · intro toks vs ns us na ua h
    rw [fanIndices_length, processFaceTokens_length toks vs ns us na ua h]

/-- Concrete OBJ file for the C10 witness: three vertices, three uv
coordinates and one triangle. -/
def witnessObjLines : List String :=
  ["v 1 2 3", "v 4 5 6", "v 7 8 9", "vt 0 0", "vt 1 0", "vt 0 1",
   "f 1/1 2/2 3/3"]

/-- Accumulated state the line loop produces on `witnessObjLines`. -/
def witnessObjState : ObjState :=
  { temp_positions := ["1", "2", "3", "4", "5", "6", "7", "8", "9"],
    temp_normals := [],
    temp_uvs := ["0", "0", "1", "0", "0", "1"],
    vertex_indices := [0, 1, 2], normal_indices := [],
    uv_indices := [0, 1, 2] }

/-- Outputs the loader produces on `witnessObjLines`. -/
def witnessObjOutputs : ObjOutputs :=
  { out_vertices := ["1", "2", "3", "4", "5", "6", "7", "8", "9"],
    out_normals := [],
    out_uv := ["0", "0", "1", "0", "0", "1"],
    out_indices := [0, 1, 2] }

/-- Witness for C10: the conclusions instantiated on a concrete
well-formed OBJ file with three vertices, three uv coordinates and one
triangle, and on the face-chunk list of its face line. -/
theorem C10_obj_outputs_fully_expanded_witness :
    processLines initObjState witnessObjLines = some witnessObjState ∧
    LoadObjFile witnessObjLines = some witnessObjOutputs ∧
    (witnessObjOutputs.out_indices =
      (List.range witnessObjState.vertex_indices.length).map
        (fun i => i % 65536) ∧
     witnessObjOutputs.out_vertices.length =
      3 * witnessObjState.vertex_indices.length ∧
     (witnessObjOutputs.out_uv ≠ [] →
      witnessObjOutputs.out_uv.length =
        2 * witnessObjState.vertex_indices.length)) ∧
    processFaceTokens [['1', '/', '1'], ['2', '/', '2'], ['3', '/', '3']] =
      some ([1, 2, 3], [0, 0, 0], [1, 2, 3], false, true) ∧
    (fanIndices [1, 2, 3]).length =
      3 * ([['1', '/', '1'], ['2', '/', '2'], ['3', '/', '3']].length - 2) := by
  refine ⟨by decide, by decide, ?_, by decide, ?_⟩
  · exact C10_obj_outputs_fully_expanded.1 witnessObjLines witnessObjState
      witnessObjOutputs (by decide) (by decide)
  · exact C10_obj_outputs_fully_expanded.2
      [['1', '/', '1'], ['2', '/', '2'], ['3', '/', '3']]
      [1, 2, 3] [0, 0, 0] [1, 2, 3] false true (by decide)

/-- Witness for C9 (amended): the amended statement instantiated at the
common render-target size 1920 by 1080. -/
theorem C9_amended_half_pixel_count_witness :
    ((0 : Int) ≤ 1920 ∧ (1920 : Int) ≤ 306783378 ∧ (0 : Int) ≤ 1080 ∧
      (1080 : Int) ≤ 306783378) ∧
    (HalfPixelCount { width := 1920, height := 1080 } =
      { width := Int.tdiv (7 * 1920) 10, height := Int.tdiv (7 * 1080) 10 } ∧
    100 * ((HalfPixelCount { width := 1920, height := 1080 }).width *
        (HalfPixelCount { width := 1920, height := 1080 }).height) ≤
      49 * ((1920 : Int) * 1080) ∧
    (1 ≤ (1920 : Int) * 1080 →
      2 * ((HalfPixelCount { width := 1920, height := 1080 }).width *
          (HalfPixelCount { width := 1920, height := 1080 }).height) <
        (1920 : Int) * 1080)) ∧
    2 * ((HalfPixelCount { width := 1920, height := 1080 }).width *
        (HalfPixelCount { width := 1920, height := 1080 }).height) <
      (1920 : Int) * 1080 :=
  ⟨⟨by decide, by decide, by decide, by decide⟩,
   C9_amended_half_pixel_count 1920 1080 (by decide) (by decide) (by decide)
     (by decide),
   (C9_amended_half_pixel_count 1920 1080 (by decide) (by decide) (by decide)
     (by decide)).2.2 (by decide)⟩

end Gvr
